import Mathlib

/-!
Shallow embedding of the spotify-tmux repository (Go):
  auth/auth.go   — OAuth token lifecycle (Authenticate, HasValidToken,
                   GetToken, loadToken, saveToken)
  player/player.go — playback REST client (PlayPause dispatch)
  ui/ui.go       — poll loop (updateLoop) and Stop

Modelling conventions:
  * Wall-clock time is an `Int`, in seconds; the Go zero `time.Time` is 0,
    matching `Expiry.IsZero()`.
  * The token file is `Option Json`: `none` when the file does not exist,
    `some j` when it exists with (parsed) JSON content `j`.
    `json.Marshal` / `json.Unmarshal` of the `TokenInfo` struct are embedded
    as `encodeTokenInfo` / `decodeTokenInfo` over a JSON AST, following the
    struct tags in auth/auth.go and golang.org/x/oauth2 (Token).
    As in `encoding/json`, a missing field decodes to the zero value and a
    type-mismatched field is an error.
  * Network interactions (token refresh / code exchange responses) enter as
    explicit oracle arguments, and functions report how many network round
    trips they performed.
  * `golang.org/x/oauth2` behaviour used by the code is embedded from that
    library: `Token.Valid` uses the library's 10-second `defaultExpiryDelta`;
    `Config.TokenSource(ctx, t).Token()` returns `t` without network if it is
    still valid, refuses to refresh without a refresh token, and otherwise
    performs one refresh round trip whose expiry is `now + expires_in`.
  * `net/http`: `http.HandleFunc` registers a pattern on the process-global
    `DefaultServeMux` and panics when the pattern is already registered
    (`ServeMux.Handle`: "http: multiple registrations for ..."); the
    `http.Server` created in `Authenticate` has a nil Handler and therefore
    serves the `DefaultServeMux`.
-/

namespace SpotifyTmux

/-- Embedding of `golang.org/x/oauth2.Token` (fields with JSON tags
`access_token`, `refresh_token`, `expiry`; `TokenType` is never read by this
repository and is omitted). `expiry = 0` models the zero `time.Time`. -/
structure Token where
  accessToken : String
  refreshToken : String
  expiry : Int
  deriving Repr, DecidableEq

/-- Embedding of `auth.TokenInfo` (auth/auth.go): JSON tags `token`,
`client_id`, `last_refresh`. `Token` is a pointer in Go, hence `Option`. -/
structure TokenInfo where
  token : Option Token
  clientID : String
  lastRefresh : Int
  deriving Repr, DecidableEq

/-- The oauth2 library's `defaultExpiryDelta` (10 seconds): a token is
reported expired this long before its actual expiry. -/
def defaultExpiryDelta : Int := 10

/-- Embedding of `oauth2.Token.expired`: false for the zero expiry, otherwise
true iff `Expiry.Add(-expiryDelta).Before(now)`. -/
def Token.expired (t : Token) (now : Int) : Bool :=
  if t.expiry = 0 then false
  else decide (t.expiry - defaultExpiryDelta < now)

/-- Embedding of `oauth2.Token.Valid` on a possibly-nil token:
`t != nil && t.AccessToken != "" && !t.expired()`. -/
def Token.validOpt (t : Option Token) (now : Int) : Bool :=
  match t with
  | none => false
  | some tok => tok.accessToken ≠ "" && !tok.expired now

/-- A small JSON AST standing for the bytes `json.Marshal` produces.
Timestamps are carried as numbers (the field-preservation abstraction of
RFC 3339 strings). -/
inductive Json where
  | null
  | str (s : String)
  | num (n : Int)
  | obj (fields : List (String × Json))
  deriving Repr

/-- Field lookup in a JSON object. -/
def Json.lookup (j : Json) (k : String) : Option Json :=
  match j with
  | .obj fs => fs.lookup k
  | _ => none

/-- Decode a string field the way `encoding/json` does for a `string` struct
field: absent means the zero value `""`, wrong type is an error. -/
def Json.getStr (j : Json) (k : String) : Option String :=
  match j.lookup k with
  | none => some ""
  | some (.str s) => some s
  | some _ => none

/-- Decode a timestamp field: absent means the zero time, wrong type is an
error. -/
def Json.getTime (j : Json) (k : String) : Option Int :=
  match j.lookup k with
  | none => some 0
  | some (.num n) => some n
  | some _ => none

/-- Serialization of `oauth2.Token` per its JSON tags. -/
def encodeToken (t : Token) : Json :=
  .obj [("access_token", .str t.accessToken),
        ("refresh_token", .str t.refreshToken),
        ("expiry", .num t.expiry)]

/-- Deserialization of `oauth2.Token`: requires a JSON object. -/
def decodeToken (j : Json) : Option Token :=
  match j with
  | .obj _ =>
    match j.getStr "access_token", j.getStr "refresh_token", j.getTime "expiry" with
    | some a, some r, some e => some ⟨a, r, e⟩
    | _, _, _ => none
  | _ => none

/-- Serialization of `auth.TokenInfo` per its JSON tags (`json.MarshalIndent`
in `saveToken`); a nil `Token` pointer marshals to `null`. -/
def encodeTokenInfo (ti : TokenInfo) : Json :=
  .obj [("token", match ti.token with
                  | none => .null
                  | some t => encodeToken t),
        ("client_id", .str ti.clientID),
        ("last_refresh", .num ti.lastRefresh)]

/-- Deserialization of `auth.TokenInfo` (`json.Unmarshal` in `loadToken`):
the top level must be an object; `token` absent or `null` yields a nil
pointer. -/
def decodeTokenInfo (j : Json) : Option TokenInfo :=
  match j with
  | .obj _ =>
    let tok : Option (Option Token) :=
      match j.lookup "token" with
      | none => some none
      | some .null => some none
      | some tj => (decodeToken tj).map some
    match tok, j.getStr "client_id", j.getTime "last_refresh" with
    | some t, some c, some l => some ⟨t, c, l⟩
    | _, _, _ => none
  | _ => none

/-- Embedding of `auth.AuthService`: the oauth2 config's client identifier and
the in-memory token. (The token file path is fixed; the file itself is passed
explicitly as `Option Json`.) -/
structure AuthService where
  clientID : String
  token : Option Token
  deriving Repr, DecidableEq

/-- Error taxonomy of the embedded auth code, one constructor per `error`
value the Go code can return on the modelled paths. -/
inductive AuthError where
  | fileNotExist      -- loadToken: "token file does not exist"
  | unmarshalFailed   -- loadToken: json.Unmarshal error
  | stateMismatch     -- callback: "state mismatch"
  | noCodeInResponse  -- callback: "no code in response"
  | timedOut          -- Authenticate: "authentication timed out"
  | listenFailed      -- ListenAndServe returned a non-ErrServerClosed error
  | exchangeFailed    -- config.Exchange failed
  | refreshFailed     -- TokenSource(...).Token() failed
  deriving Repr, DecidableEq

/-- Embedding of `AuthService.loadToken` (auth/auth.go lines 195-215): error
when the file is absent, error when `json.Unmarshal` fails, otherwise install
only `tokenInfo.Token` into the service. -/
def loadToken (a : AuthService) (file : Option Json) : Except AuthError AuthService :=
  match file with
  | none => .error .fileNotExist
  | some data =>
    match decodeTokenInfo data with
    | none => .error .unmarshalFailed
    | some ti => .ok { a with token := ti.token }

/-- Embedding of `AuthService.saveToken` (auth/auth.go lines 218-239): the
written file content. The record saved is built fresh: the in-memory token,
the configured client identifier, and `time.Now()` as `LastRefresh`.
Directory creation and the write are modelled as succeeding. -/
def saveToken (a : AuthService) (now : Int) : Json :=
  encodeTokenInfo { token := a.token, clientID := a.clientID, lastRefresh := now }

/-- Embedding of `AuthService.HasValidToken` (auth/auth.go lines 146-157):
returns the boolean, the possibly updated service (the in-memory token may be
populated from disk), and the number of network round trips performed (the
function only touches the clock and the file, so this count is 0 by
construction, mirroring the source). -/
def HasValidToken (a : AuthService) (file : Option Json) (now : Int) :
    Bool × AuthService × Nat :=
  if Token.validOpt a.token now then (true, a, 0)
  else
    match loadToken a file with
    | .error _ => (false, a, 0)
    | .ok a1 => (Token.validOpt a1.token now, a1, 0)

/-- The body of a successful response from the provider's token endpoint, for
a refresh or a code exchange: `access_token`, `refresh_token`, `expires_in`
(seconds). -/
structure TokenResponse where
  accessToken : String
  refreshToken : String
  expiresIn : Int
  deriving Repr, DecidableEq

/-- The token the oauth2 library builds from a token-endpoint response:
expiry is `now + expires_in`, or the zero time when `expires_in` is 0
(`internal.Token.expiry`). -/
def tokenFromResponse (r : TokenResponse) (now : Int) : Token :=
  { accessToken := r.accessToken,
    refreshToken := r.refreshToken,
    expiry := if r.expiresIn = 0 then 0 else now + r.expiresIn }

/-- Embedding of `a.config.TokenSource(ctx, t).Token()` from the oauth2
library, as used in `GetToken`: `reuseTokenSource` returns `t` with no
network traffic while it is valid; otherwise `tokenRefresher.Token()` fails
fast when no refresh token is set, and otherwise performs one network round
trip to the token endpoint, whose outcome is the oracle `resp` (`none` models
a failed exchange). The second component counts network round trips. -/
def tokenSourceToken (t : Token) (now : Int) (resp : Option TokenResponse) :
    Except AuthError Token × Nat :=
  if Token.validOpt (some t) now then (.ok t, 0)
  else if t.refreshToken = "" then (.error .refreshFailed, 0)
  else
    match resp with
    | none => (.error .refreshFailed, 1)
    | some r => (.ok (tokenFromResponse r now), 1)

/-- Embedding of `AuthService.GetToken` (auth/auth.go lines 160-182).
Returns the Go pair `(token, err)` (note the code returns `a.token`, which
can be nil with a nil error when the loaded record held a null token), the
updated service, the updated token file, and the number of network round
trips. -/
def GetToken (a : AuthService) (file : Option Json) (now : Int)
    (resp : Option TokenResponse) :
    Except AuthError (Option Token) × AuthService × Option Json × Nat :=
  match (if a.token.isNone then loadToken a file else .ok a) with
  | .error e => (.error e, a, file, 0)
  | .ok a1 =>
    match a1.token with
    | some t =>
      if !Token.validOpt (some t) now then
        match tokenSourceToken t now resp with
        | (.error e, n) => (.error e, a1, file, n)
        | (.ok newTok, n) =>
          let a2 : AuthService := { a1 with token := some newTok }
          (.ok (some newTok), a2, some (saveToken a2 now), n)
      else (.ok (some t), a1, file, 0)
    | none => (.ok none, a1, file, 0)

/-! ## Authenticate (auth/auth.go lines 65-143) -/

/-- A callback HTTP request: the `state` and `code` query parameters.
`r.URL.Query().Get` yields `""` for an absent parameter, so plain strings
suffice. -/
structure CallbackRequest where
  state : String
  code : String
  deriving Repr, DecidableEq

/-- The HTTP response written by the callback handler. -/
structure CallbackResponse where
  status : Nat
  body : String
  deriving Repr, DecidableEq

/-- What the callback handler signals to `Authenticate` over `errChan` /
`codeChan`. -/
inductive CallbackSignal where
  | errSignal (e : AuthError)
  | codeSignal (c : String)
  deriving Repr, DecidableEq

/-- Embedding of the `/callback` handler closure registered by
`http.HandleFunc` in `Authenticate` (auth/auth.go lines 80-101): verify the
state against the nonce of the current attempt, require a `code`, answer
400 via `http.Error` on either failure and 200 with the success page
otherwise. -/
def callbackHandler (nonce : String) (r : CallbackRequest) :
    CallbackResponse × CallbackSignal :=
  if r.state ≠ nonce then
    (⟨400, "State mismatch"⟩, .errSignal .stateMismatch)
  else if r.code = "" then
    (⟨400, "No code in response"⟩, .errSignal .noCodeInResponse)
  else
    (⟨200, "Authentication successful! You can now close this window."⟩,
     .codeSignal r.code)

/-- The timeout of the `select` in `Authenticate`: `5 * time.Minute`, in
seconds. -/
def authTimeoutSeconds : Nat := 5 * 60

/-- The first event that reaches the `select` in `Authenticate`: a callback
request served by the handler, a `ListenAndServe` failure on `errChan`, or
the `time.After(5 * time.Minute)` timeout firing because no callback arrived
within `authTimeoutSeconds`. -/
inductive AuthEvent where
  | callback (r : CallbackRequest)
  | listenError
  | timeoutFired
  deriving Repr, DecidableEq

/-- Outcome of one `Authenticate` call. `panicked` is Go's runtime panic
raised by `http.HandleFunc` on a duplicate pattern registration; otherwise
the call returns an error or nil, and `shutdown` records whether
`server.Shutdown` was called before returning. -/
inductive AuthOutcome where
  | panicked
  | failed (e : AuthError) (shutdown : Bool)
  | succeeded (t : Token) (shutdown : Bool)
  deriving Repr, DecidableEq

/-- Embedding of `AuthService.Authenticate` (auth/auth.go lines 65-143).
`mux` is the set of patterns already registered on the process-global
`http.DefaultServeMux` (the server is created with a nil handler, so it
serves that mux, and `http.HandleFunc` panics when `"/callback"` is already
registered there — `net/http.ServeMux.Handle`). `nonce` stands for the
generated random state, `event` for what the `select` receives first, and
`exch` for the outcome of `config.Exchange` on the received code. Returns
the outcome, the updated service, the updated mux, and the updated token
file. -/
def Authenticate (a : AuthService) (mux : List String) (file : Option Json)
    (nonce : String) (event : AuthEvent) (now : Int)
    (exch : Option TokenResponse) :
    AuthOutcome × AuthService × List String × Option Json :=
  if "/callback" ∈ mux then
    (.panicked, a, mux, file)
  else
    let mux1 := mux ++ ["/callback"]
    match event with
    | .listenError => (.failed .listenFailed true, a, mux1, file)
    | .timeoutFired => (.failed .timedOut true, a, mux1, file)
    | .callback r =>
      match callbackHandler nonce r with
      | (_, .errSignal e) => (.failed e true, a, mux1, file)
      | (_, .codeSignal _) =>
        match exch with
        | none => (.failed .exchangeFailed true, a, mux1, file)
        | some resp =>
          let tok := tokenFromResponse resp now
          let a1 : AuthService := { a with token := some tok }
          (.succeeded tok true, a1, mux1, some (saveToken a1 now))

/-! ## Playback client (player/player.go) -/

/-- Embedding of `player.Track` (the fields the repository declares). -/
structure Track where
  name : String
  artists : List String
  album : String
  duration : Int
  deriving Repr, DecidableEq

/-- Embedding of `player.CurrentlyPlaying`. -/
structure CurrentlyPlaying where
  isPlaying : Bool
  track : Track
  progress : Int
  deriving Repr, DecidableEq

/-- Errors of the playback client: a failed client/token acquisition or a
non-2xx remote API response carrying status and body. -/
inductive PlayerError where
  | clientFailed
  | remoteApi (status : Nat) (body : String)
  | decodeFailed
  deriving Repr, DecidableEq

/-- The transport commands the playback client can issue, one per REST
endpoint hit by `Play`, `Pause`, `Next`, `Previous`. -/
inductive TransportCommand where
  | play
  | pause
  | next
  | previous
  deriving Repr, DecidableEq

/-- Embedding of `PlayerService.PlayPause` (player/player.go lines 475-487).
The collaborators enter as oracles: `query` is the result of
`GetCurrentlyPlaying()`, and `pauseResult` / `playResult` the results of the
`Pause()` / `Play()` call that would be issued. Returns the Go error result
together with the list of transport commands issued, in order. -/
def PlayPause (query : Except PlayerError CurrentlyPlaying)
    (pauseResult : Except PlayerError Unit)
    (playResult : Except PlayerError Unit) :
    Except PlayerError Unit × List TransportCommand :=
  match query with
  | .error e => (.error e, [])
  | .ok current =>
    if current.isPlaying then (pauseResult, [.pause])
    else (playResult, [.play])

/-! ## Poll loop (ui/ui.go lines 127-148)

`updateLoop` runs `select { case <-ticker.C: updateTrackInfo() ;
case <-u.stopChan: return }` in a loop; `Stop` closes `stopChan`. The loop
is embedded as a labelled transition system over the channel state:
`ticker.C` has capacity 1 (`time.NewTicker`), so at most one tick is
pending; a closed `stopChan` makes its receive permanently ready. Per the Go
specification, when several `select` cases can proceed one is chosen
uniformly at random, so whenever both a tick and the closed stop channel are
ready, either branch may be taken: this nondeterminism is the choice of
label. -/

/-- State of the poll loop and its channels. -/
structure LoopState where
  tickPending : Bool
  stopClosed : Bool
  returned : Bool
  deriving Repr, DecidableEq

/-- One event in an execution of the poll loop: the ticker firing, `Stop()`
closing the stop channel, or the loop's `select` taking one of its two
branches (`selectTick` is exactly one call to `updateTrackInfo`). -/
inductive LoopLabel where
  | tickFires
  | stopRequested
  | selectTick
  | selectStop
  deriving Repr, DecidableEq

/-- The step function of the poll-loop transition system: `none` means the
event cannot happen in that state. A tick can fire while the loop runs
(`defer ticker.Stop()` stops the ticker on return); `close(u.stopChan)`
happens at most once; a `select` branch needs its channel ready and the
loop still running. -/
def loopStep (s : LoopState) : LoopLabel → Option LoopState
  | .tickFires =>
    if s.returned then none else some { s with tickPending := true }
  | .stopRequested =>
    if s.stopClosed then none else some { s with stopClosed := true }
  | .selectTick =>
    if s.returned || !s.tickPending then none
    else some { s with tickPending := false }
  | .selectStop =>
    if s.returned || !s.stopClosed then none
    else some { s with returned := true }

/-- Run a sequence of events from a state; `none` when some event is not
enabled where it occurs. A `some` result means the sequence is a possible
execution. -/
def runTrace (s : LoopState) : List LoopLabel → Option LoopState
  | [] => some s
  | l :: ls =>
    match loopStep s l with
    | none => none
    | some s1 => runTrace s1 ls

/-- The initial state of `updateLoop`: no tick pending, stop channel open,
loop running. -/
def loopInit : LoopState := ⟨false, false, false⟩

/-- Whether `server.Shutdown` was called before `Authenticate` returned, read
off an outcome (a panic never reaches a return). -/
def AuthOutcome.shutdownFlag : AuthOutcome → Bool
  | .panicked => false
  | .failed _ sd => sd
  | .succeeded _ sd => sd

/-! ## Helper lemmas -/

/-- Serialization round trip at the record level: `json.Unmarshal` inverts
`json.MarshalIndent` on every `TokenInfo`. -/
theorem decodeTokenInfo_encodeTokenInfo (ti : TokenInfo) :
    decodeTokenInfo (encodeTokenInfo ti) = some ti := by
  obtain ⟨tok, c, l⟩ := ti
  cases tok <;> rfl

/-- Running a concatenated trace runs the two halves in sequence. -/
theorem runTrace_append (s : LoopState) (tr1 tr2 : List LoopLabel) :
    runTrace s (tr1 ++ tr2) =
      match runTrace s tr1 with
      | none => none
      | some s1 => runTrace s1 tr2 := by
  induction tr1 generalizing s with
  | nil => rfl
  | cons l ls ih =>
    simp only [List.cons_append, runTrace]
    cases loopStep s l with
    | none => rfl
    | some s1 => exact ih s1

/-- Once the loop has returned, no event of a continuing execution is a
`selectTick` (in fact only `stopRequested` remains enabled, and it preserves
`returned`). -/
theorem no_selectTick_of_returned (s : LoopState) (tr : List LoopLabel)
    (s1 : LoopState) (hret : s.returned = true)
    (hrun : runTrace s tr = some s1) : LoopLabel.selectTick ∉ tr := by
  induction tr generalizing s with
  | nil => simp
  | cons l ls ih =>
    cases l with
    | tickFires => simp [runTrace, loopStep, hret] at hrun
    | selectTick => simp [runTrace, loopStep, hret] at hrun
    | selectStop => simp [runTrace, loopStep, hret] at hrun
    | stopRequested =>
      simp only [runTrace, loopStep] at hrun
      by_cases hc : s.stopClosed
      · simp [hc] at hrun
      · simp only [hc, if_neg, Bool.false_eq_true, ite_false] at hrun
        have := ih { s with stopClosed := true } hret hrun
        simp_all

/-! ## Claim theorems -/

/-- C3: saving any token record via saveToken() and then deserializing it the
way loadToken() does yields a record equal in all fields to the one saved
(access credential, refresh credential, expiry inside the token, client
identifier, last-refresh timestamp); accordingly a subsequent loadToken()
succeeds and installs exactly the saved token. -/
theorem C3_save_load_roundtrip (a a2 : AuthService) (now : Int) :
    decodeTokenInfo (saveToken a now) =
      some { token := a.token, clientID := a.clientID, lastRefresh := now } ∧
    loadToken a2 (some (saveToken a now)) = .ok { a2 with token := a.token } := by
  refine ⟨decodeTokenInfo_encodeTokenInfo _, ?_⟩
  simp [loadToken, saveToken, decodeTokenInfo_encodeTokenInfo]

/-- C4 counterexample: when no token file exists, loadToken() does not return
a normal non-error absent result — it returns the error "token file does not
exist". -/
theorem C4_counterexample_absent_file_is_error :
    loadToken ⟨"cid", none⟩ none = .error .fileNotExist := rfl

/-- C4 (amended): when no token file exists, loadToken() returns an error
("token file does not exist") rather than a non-error absent result;
malformed content of an existing file is likewise reported as an error (the
json.Unmarshal failure). -/
theorem C4_amended_load_error_paths (a : AuthService) (j : Json)
    (hbad : decodeTokenInfo j = none) :
    loadToken a none = .error .fileNotExist ∧
    loadToken a (some j) = .error .unmarshalFailed := by
  exact ⟨rfl, by simp [loadToken, hbad]⟩

/-- C4 witness: the amended load error paths at a concrete service and a
concrete malformed file content. -/
theorem C4_amended_load_error_paths_witness :
    decodeTokenInfo (.str "garbage") = none ∧
    (loadToken ⟨"cid", none⟩ none = .error .fileNotExist ∧
     loadToken ⟨"cid", none⟩ (some (.str "garbage")) = .error .unmarshalFailed) :=
  ⟨rfl, C4_amended_load_error_paths ⟨"cid", none⟩ (.str "garbage") rfl⟩

/-- C10: every successful saveToken() persists a record whose client_id is
the configured client identifier and whose last_refresh is the wall-clock
time of the save, regardless of the client_id and last_refresh of any
previously loaded record; loadToken() restores only the token field into
memory, discarding the persisted client_id and last_refresh. -/
theorem C10_save_stamps_config_load_restores_token_only
    (a : AuthService) (j : Json) (ti : TokenInfo) (now : Int)
    (hdec : decodeTokenInfo j = some ti) :
    loadToken a (some j) = .ok { a with token := ti.token } ∧
    decodeTokenInfo (saveToken { a with token := ti.token } now) =
      some { token := ti.token, clientID := a.clientID, lastRefresh := now } := by
  constructor
  · simp [loadToken, hdec]
  · exact decodeTokenInfo_encodeTokenInfo _

/-- C10 witness: load a persisted record carrying a stale client_id and
last_refresh; only its token is restored, and a subsequent save stamps the
configured client_id and the save time. -/
theorem C10_save_stamps_config_load_restores_token_only_witness :
    decodeTokenInfo (encodeTokenInfo ⟨some ⟨"AT1", "RT1", 1000⟩, "stale", 7⟩) =
      some ⟨some ⟨"AT1", "RT1", 1000⟩, "stale", 7⟩ ∧
    (loadToken ⟨"abc", none⟩
        (some (encodeTokenInfo ⟨some ⟨"AT1", "RT1", 1000⟩, "stale", 7⟩)) =
      .ok ⟨"abc", some ⟨"AT1", "RT1", 1000⟩⟩ ∧
     decodeTokenInfo (saveToken ⟨"abc", some ⟨"AT1", "RT1", 1000⟩⟩ 42) =
      some ⟨some ⟨"AT1", "RT1", 1000⟩, "abc", 42⟩) :=
  ⟨rfl, C10_save_stamps_config_load_restores_token_only
          ⟨"abc", none⟩ _ ⟨some ⟨"AT1", "RT1", 1000⟩, "stale", 7⟩ 42 rfl⟩

/-- C6 counterexample: a stored record whose expiry (105) is strictly in the
future of the clock (100) for which HasValidToken() nevertheless returns
false, because `oauth2.Token.Valid` treats a token as expired 10 seconds
(`defaultExpiryDelta`) before its actual expiry. -/
theorem C6_counterexample_future_expiry_reported_invalid :
    (100 : Int) < 105 ∧
    (HasValidToken ⟨"cid", none⟩
        (some (encodeTokenInfo ⟨some ⟨"AT", "RT", 105⟩, "cid", 0⟩)) 100).1 = false := by
  exact ⟨by decide, rfl⟩

/-- C6 (amended): for every stored token record with a non-empty access
credential whose expiry is at least 10 seconds (the oauth2 library's expiry
delta) in the future, HasValidToken() returns true using only the clock and
the stored data — zero network round trips — and populates the in-memory
token from disk as a side effect. -/
theorem C6_amended_valid_token_no_network (a : AuthService) (now : Int)
    (ti : TokenInfo) (t : Token)
    (hmem : a.token = none) (htok : ti.token = some t)
    (hacc : t.accessToken ≠ "") (hexp : now + defaultExpiryDelta ≤ t.expiry) :
    HasValidToken a (some (encodeTokenInfo ti)) now =
      (true, { a with token := some t }, 0) := by
  have hexpired : t.expired now = false := by
    unfold Token.expired
    split
    · rfl
    · simp only [decide_eq_false_iff_not, not_lt]
      unfold defaultExpiryDelta at hexp ⊢
      omega
  have hvalid : Token.validOpt (some t) now = true := by
    simp [Token.validOpt, hacc, hexpired]
  have hnone : Token.validOpt none now = false := rfl
  have hload : loadToken a (some (encodeTokenInfo ti)) = .ok { a with token := ti.token } := by
    simp [loadToken, decodeTokenInfo_encodeTokenInfo]
  simp [HasValidToken, hmem, hnone, hload, htok, hvalid]

/-- C6 witness: the amended statement at a concrete record whose expiry (200)
is at least 10 seconds past the clock (100). -/
theorem C6_amended_valid_token_no_network_witness :
    (⟨"cid", none⟩ : AuthService).token = none ∧
    (⟨some ⟨"AT", "RT", 200⟩, "x", 0⟩ : TokenInfo).token = some ⟨"AT", "RT", 200⟩ ∧
    ("AT" : String) ≠ "" ∧
    (100 : Int) + defaultExpiryDelta ≤ 200 ∧
    HasValidToken ⟨"cid", none⟩
        (some (encodeTokenInfo ⟨some ⟨"AT", "RT", 200⟩, "x", 0⟩)) 100 =
      (true, ⟨"cid", some ⟨"AT", "RT", 200⟩⟩, 0) :=
  ⟨rfl, rfl, by decide, by decide,
   C6_amended_valid_token_no_network ⟨"cid", none⟩ 100
     ⟨some ⟨"AT", "RT", 200⟩, "x", 0⟩ ⟨"AT", "RT", 200⟩ rfl rfl (by decide) (by decide)⟩

/-- C2: for every stored token record whose expiry is a real timestamp in
the past and which carries a refresh credential — whether the record is
already held in memory or only persisted in the token file, from which
GetToken() first loads it — GetToken() performs exactly one refresh round
trip, the refreshed token's expiry is strictly later than the prior expiry,
and the refreshed record (with the configured client identifier and the
refresh time) is persisted to the token file that GetToken hands back along
with the token. -/
theorem C2_getToken_refreshes_expired_once (a : AuthService)
    (file : Option Json) (now : Int) (t : Token) (ti : TokenInfo)
    (r : TokenResponse)
    (hstored : a.token = some t ∨
      (a.token = none ∧ file = some (encodeTokenInfo ti) ∧ ti.token = some t))
    (hpos : 0 < t.expiry) (hpast : t.expiry < now)
    (href : t.refreshToken ≠ "") (hin : 0 < r.expiresIn) :
    GetToken a file now (some r) =
      (.ok (some (tokenFromResponse r now)),
       { a with token := some (tokenFromResponse r now) },
       some (saveToken { a with token := some (tokenFromResponse r now) } now),
       1) ∧
    t.expiry < (tokenFromResponse r now).expiry ∧
    decodeTokenInfo (saveToken { a with token := some (tokenFromResponse r now) } now) =
      some { token := some (tokenFromResponse r now), clientID := a.clientID,
             lastRefresh := now } := by
  have hexpired : t.expired now = true := by
    unfold Token.expired
    rw [if_neg (by omega)]
    simp only [decide_eq_true_iff]
    unfold defaultExpiryDelta
    omega
  have hinvalid : Token.validOpt (some t) now = false := by
    simp [Token.validOpt, hexpired]
  have hsrc : tokenSourceToken t now (some r) = (.ok (tokenFromResponse r now), 1) := by
    unfold tokenSourceToken
    rw [hinvalid, if_neg (by simp), if_neg href]
  refine ⟨?_, ?_, decodeTokenInfo_encodeTokenInfo _⟩
  · rcases hstored with hmem | ⟨hmem, hfile, hti⟩
    · simp [GetToken, hmem, hinvalid, hsrc]
    · have hload : loadToken a file = .ok { a with token := some t } := by
        rw [hfile]
        simp [loadToken, decodeTokenInfo_encodeTokenInfo, hti]
      simp [GetToken, hmem, hload, hinvalid, hsrc]
  · unfold tokenFromResponse
    simp only
    rw [if_neg (by omega)]
    omega

/-- C2 witness: the claim's stored-record scenario at concrete values — the
service holds no token in memory, the token file persists an expired record
(expiry 50, stale client_id and last_refresh) with a refresh credential, the
clock is 100 and the token endpoint answers with expires_in 3600. -/
theorem C2_getToken_refreshes_expired_once_witness :
    ((⟨"abc", none⟩ : AuthService).token = some ⟨"OLD", "RT1", 50⟩ ∨
     ((⟨"abc", none⟩ : AuthService).token = none ∧
      (some (encodeTokenInfo ⟨some ⟨"OLD", "RT1", 50⟩, "stale", 7⟩) : Option Json) =
        some (encodeTokenInfo ⟨some ⟨"OLD", "RT1", 50⟩, "stale", 7⟩) ∧
      (⟨some ⟨"OLD", "RT1", 50⟩, "stale", 7⟩ : TokenInfo).token =
        some ⟨"OLD", "RT1", 50⟩)) ∧
    (0 : Int) < 50 ∧ (50 : Int) < 100 ∧ ("RT1" : String) ≠ "" ∧
    (0 : Int) < 3600 ∧
    (GetToken ⟨"abc", none⟩
        (some (encodeTokenInfo ⟨some ⟨"OLD", "RT1", 50⟩, "stale", 7⟩)) 100
        (some ⟨"AT2", "RT2", 3600⟩) =
      (.ok (some (tokenFromResponse ⟨"AT2", "RT2", 3600⟩ 100)),
       ⟨"abc", some (tokenFromResponse ⟨"AT2", "RT2", 3600⟩ 100)⟩,
       some (saveToken ⟨"abc", some (tokenFromResponse ⟨"AT2", "RT2", 3600⟩ 100)⟩ 100),
       1) ∧
     (50 : Int) < (tokenFromResponse ⟨"AT2", "RT2", 3600⟩ 100).expiry ∧
     decodeTokenInfo (saveToken ⟨"abc", some (tokenFromResponse ⟨"AT2", "RT2", 3600⟩ 100)⟩ 100) =
       some { token := some (tokenFromResponse ⟨"AT2", "RT2", 3600⟩ 100),
              clientID := "abc", lastRefresh := 100 }) :=
  ⟨Or.inr ⟨rfl, rfl, rfl⟩, by decide, by decide, by decide, by decide,
   C2_getToken_refreshes_expired_once ⟨"abc", none⟩
     (some (encodeTokenInfo ⟨some ⟨"OLD", "RT1", 50⟩, "stale", 7⟩)) 100
     ⟨"OLD", "RT1", 50⟩ ⟨some ⟨"OLD", "RT1", 50⟩, "stale", 7⟩ ⟨"AT2", "RT2", 3600⟩
     (Or.inr ⟨rfl, rfl, rfl⟩) (by decide) (by decide) (by decide) (by decide)⟩

/-- C5: a callback whose state query parameter differs from the nonce of the
current login attempt makes Authenticate() fail with the state-mismatch
error while the service, the registered token and the token file stay
untouched (no token is ever produced), and the callback HTTP response has
status 400; a callback with the matching state and a non-empty code receives
the 200 success page. -/
theorem C5_state_mismatch_400_match_200
    (a : AuthService) (mux : List String) (file : Option Json)
    (nonce : String) (r : CallbackRequest) (now : Int)
    (exch : Option TokenResponse) (hmux : "/callback" ∉ mux) :
    (r.state ≠ nonce →
      (callbackHandler nonce r).1.status = 400 ∧
      Authenticate a mux file nonce (.callback r) now exch =
        (.failed .stateMismatch true, a, mux ++ ["/callback"], file)) ∧
    (r.state = nonce → r.code ≠ "" →
      (callbackHandler nonce r).1 =
        ⟨200, "Authentication successful! You can now close this window."⟩) := by
  constructor
  · intro hne
    constructor
    · simp [callbackHandler, hne]
    · simp [Authenticate, hmux, callbackHandler, hne]
  · intro heq hcode
    simp [callbackHandler, heq, hcode]

/-- C5 witness: the mismatching and matching callbacks at concrete values
(nonce "N", mismatching state "wrong", code "C1"). -/
theorem C5_state_mismatch_400_match_200_witness :
    ((callbackHandler "N" ⟨"wrong", "C1"⟩).1.status = 400 ∧
     Authenticate ⟨"cid", none⟩ [] none "N" (.callback ⟨"wrong", "C1"⟩) 100 none =
       (.failed .stateMismatch true, ⟨"cid", none⟩, ["/callback"], none)) ∧
    (callbackHandler "N" ⟨"N", "C1"⟩).1 =
      ⟨200, "Authentication successful! You can now close this window."⟩ :=
  ⟨(C5_state_mismatch_400_match_200 ⟨"cid", none⟩ [] none "N" ⟨"wrong", "C1"⟩
      100 none (by simp)).1 (by decide),
   (C5_state_mismatch_400_match_200 ⟨"cid", none⟩ [] none "N" ⟨"N", "C1"⟩
      100 none (by simp)).2 rfl (by decide)⟩

/-- C7: when the select in Authenticate() is resolved by the 5-minute
timeout (no callback arrived within `authTimeoutSeconds = 300` seconds),
Authenticate returns the "authentication timed out" error, the listener has
been shut down before the return, and the service and token file are
untouched. -/
theorem C7_timeout_returns_error_and_shuts_down
    (a : AuthService) (mux : List String) (file : Option Json)
    (nonce : String) (now : Int) (exch : Option TokenResponse)
    (hmux : "/callback" ∉ mux) :
    Authenticate a mux file nonce .timeoutFired now exch =
      (.failed .timedOut true, a, mux ++ ["/callback"], file) ∧
    authTimeoutSeconds = 5 * 60 := by
  refine ⟨?_, rfl⟩
  simp [Authenticate, hmux]

/-- C7 witness: the timeout path at a concrete service and an empty mux. -/
theorem C7_timeout_returns_error_and_shuts_down_witness :
    Authenticate ⟨"cid", none⟩ [] none "N" .timeoutFired 100 none =
      (.failed .timedOut true, ⟨"cid", none⟩, ["/callback"], none) ∧
    authTimeoutSeconds = 5 * 60 :=
  C7_timeout_returns_error_and_shuts_down ⟨"cid", none⟩ [] none "N" 100 none (by simp)

/-- C1: on a first Authenticate() call every exit path — success, state
mismatch, missing code, listener start error, timeout, failed exchange —
shuts the listener down before returning (shutdownFlag is true, never a
panic), BUT the claim's consequence fails: the callback handler is
registered on the process-global DefaultServeMux, which still holds the
"/callback" pattern after the first call, so a second Authenticate() call
panics inside http.HandleFunc ("http: multiple registrations for
/callback") before it can bind the port. The second conjunct evaluates the
code at the failing input: a repeat call after a timed-out first attempt. -/
theorem C1_shutdown_on_every_exit_but_second_call_panics :
    (∀ (a : AuthService) (file : Option Json) (nonce : String)
       (event : AuthEvent) (now : Int) (exch : Option TokenResponse),
       ((Authenticate a [] file nonce event now exch).1).shutdownFlag = true ∧
       (Authenticate a [] file nonce event now exch).2.2.1 = ["/callback"]) ∧
    (Authenticate ⟨"cid", none⟩ [] none "N" .timeoutFired 100 none =
       (.failed .timedOut true, ⟨"cid", none⟩, ["/callback"], none) ∧
     Authenticate ⟨"cid", none⟩ ["/callback"] none "N2" .timeoutFired 400 none =
       (.panicked, ⟨"cid", none⟩, ["/callback"], none)) := by
  constructor
  · intro a file nonce event now exch
    cases event with
    | listenError => exact ⟨rfl, rfl⟩
    | timeoutFired => exact ⟨rfl, rfl⟩
    | callback r =>
      by_cases h1 : r.state = nonce
      · by_cases h2 : r.code = ""
        · simp [Authenticate, callbackHandler, h1, h2, AuthOutcome.shutdownFlag]
        · cases exch with
          | none =>
            simp [Authenticate, callbackHandler, h1, h2, AuthOutcome.shutdownFlag]
          | some resp =>
            simp [Authenticate, callbackHandler, h1, h2, AuthOutcome.shutdownFlag]
      · simp [Authenticate, callbackHandler, h1, AuthOutcome.shutdownFlag]
  · exact ⟨rfl, rfl⟩

/-- C8 counterexample: an execution admitted by the poll loop's semantics in
which a tick fires, Stop() then closes the stop channel, and the select
nevertheless takes the tick branch — one more updateTrackInfo call after the
stop was requested. Both channels are ready at the select, and Go's select
chooses among ready cases pseudo-randomly, so nothing forces the stop branch
first: the claim "no further tick is processed once stop has been requested"
fails on this schedule. -/
theorem C8_counterexample_tick_processed_after_stop :
    runTrace loopInit
        [.tickFires, .stopRequested, .selectTick] = some ⟨false, true, false⟩ :=
  rfl

/-- C8 (amended): once the poll loop observes the stop signal (the select
takes the stop branch and the loop returns), no further tick is processed —
in every execution of the loop from its initial state, nothing after the
selectStop event is a selectTick (no further updateTrackInfo call). A tick
already pending when Stop() is called may however still be processed before
the loop observes the stop, because the select chooses among ready channels
nondeterministically. -/
theorem C8_amended_no_tick_after_stop_observed
    (tr1 tr2 : List LoopLabel) (s1 : LoopState)
    (hrun : runTrace loopInit (tr1 ++ LoopLabel.selectStop :: tr2) = some s1) :
    LoopLabel.selectTick ∉ tr2 := by
  rw [runTrace_append] at hrun
  cases h : runTrace loopInit tr1 with
  | none => rw [h] at hrun; exact absurd hrun (by simp)
  | some s2 =>
    rw [h] at hrun
    simp only [runTrace] at hrun
    cases hstep : loopStep s2 .selectStop with
    | none => rw [hstep] at hrun; exact absurd hrun (by simp)
    | some s3 =>
      rw [hstep] at hrun
      have hret : s3.returned = true := by
        simp only [loopStep] at hstep
        by_cases hc : (s2.returned || !s2.stopClosed) = true
        · rw [if_pos hc] at hstep; exact absurd hstep (by simp)
        · rw [if_neg hc] at hstep
          cases hstep
          rfl
      exact no_selectTick_of_returned s3 tr2 s1 hret hrun

/-- C8 witness: the execution in which Stop() closes the channel and the
select then takes the stop branch; nothing after the stop branch processes
a tick. -/
theorem C8_amended_no_tick_after_stop_observed_witness :
    runTrace loopInit
        ([LoopLabel.stopRequested] ++ LoopLabel.selectStop :: []) =
      some ⟨false, true, true⟩ ∧
    LoopLabel.selectTick ∉ ([] : List LoopLabel) :=
  ⟨rfl,
   C8_amended_no_tick_after_stop_observed [.stopRequested] []
     ⟨false, true, true⟩ rfl⟩

/-- C9: PlayPause() first queries the currently-playing state; when that
query fails it returns the error and issues no transport command; otherwise
it issues exactly one transport command — Pause when the state reports
playing, Play when it reports not playing — returning that command's
result. -/
theorem C9_playPause_queries_then_one_command
    (query : Except PlayerError CurrentlyPlaying)
    (pauseResult playResult : Except PlayerError Unit) :
    (∀ e, query = .error e →
      PlayPause query pauseResult playResult = (.error e, [])) ∧
    (∀ c, query = .ok c →
      PlayPause query pauseResult playResult =
        (if c.isPlaying then pauseResult else playResult,
         [if c.isPlaying then TransportCommand.pause else TransportCommand.play]) ∧
      (PlayPause query pauseResult playResult).2.length = 1) := by
  constructor
  · intro e he
    rw [he]
    rfl
  · intro c hc
    rw [hc]
    refine ⟨?_, ?_⟩ <;> simp [PlayPause] <;> split <;> rfl

/-- C9 witness: a playing state yields exactly the Pause command, and a
failing query yields the error with no command. -/
theorem C9_playPause_queries_then_one_command_witness :
    (PlayPause (.ok ⟨true, ⟨"Song", ["A"], "Alb", 200⟩, 10⟩) (.ok ()) (.ok ()) =
       (if (true : Bool) then Except.ok () else .ok (),
        [if (true : Bool) then TransportCommand.pause else .play]) ∧
     (PlayPause (.ok ⟨true, ⟨"Song", ["A"], "Alb", 200⟩, 10⟩)
        (.ok ()) (.ok ())).2.length = 1) ∧
    PlayPause (.error .clientFailed) (.ok ()) (.ok ()) =
      (.error .clientFailed, []) :=
  ⟨(C9_playPause_queries_then_one_command
      (.ok ⟨true, ⟨"Song", ["A"], "Alb", 200⟩, 10⟩) (.ok ()) (.ok ())).2
      ⟨true, ⟨"Song", ["A"], "Alb", 200⟩, 10⟩ rfl,
   (C9_playPause_queries_then_one_command
      (.error .clientFailed) (.ok ()) (.ok ())).1 .clientFailed rfl⟩

end SpotifyTmux
